import Mathlib

/-!
Verification development for the dual-backend user CRUD service
(Express controllers over a Mongoose document store and a Prisma
relational store).  The definitions below are a shallow embedding of
src/controllers/userController.js, src/models/User.js and the relational
User model documented in DATA_FORMAT_GUIDE.md; the theorems settle the
specification claims about them.
-/

/-! ## JavaScript value semantics used by the controllers -/

/-- A JSON/JavaScript value as it appears in a request body field:
null, a string, an integer number, or a boolean.  (The service only
ever handles integer numerics.) -/
inductive JsVal where
  | vnull : JsVal
  | vstr (s : String) : JsVal
  | vnum (n : Int) : JsVal
  | vbool (b : Bool) : JsVal
deriving Repr, DecidableEq

/-- A request body for create/update: each of the four recognised fields
is either absent (none) or present with a JS value. -/
structure Body where
  name : Option JsVal := none
  email : Option JsVal := none
  age : Option JsVal := none
  role : Option JsVal := none
deriving Repr, DecidableEq

/-- JavaScript truthiness of an optional field, as used by the
controller checks such as if (!name || !email): absent and null are
falsy, a string is truthy iff nonempty, a number iff nonzero, a boolean
iff true. -/
def jsTruthy : Option JsVal → Bool
  | none => false
  | some .vnull => false
  | some (.vstr s) => !(s == "")
  | some (.vnum n) => !(n == 0)
  | some (.vbool b) => b

/-- Whitespace recognised by trimming. -/
def isSpaceChar (c : Char) : Bool :=
  c == ' ' || c == '\t' || c == '\n' || c == '\r'

/-- Trim leading and trailing whitespace, as the Mongoose trim setter
and JS parseInt do. -/
def jsTrim (s : String) : String :=
  String.mk (((s.toList.dropWhile isSpaceChar).reverse.dropWhile isSpaceChar).reverse)

/-- ASCII lowercase of one character. -/
def lowerChar (c : Char) : Char :=
  if 'A' ≤ c && c ≤ 'Z' then Char.ofNat (c.toNat + 32) else c

/-- Lowercase a string, as the Mongoose lowercase setter does. -/
def jsToLower (s : String) : String :=
  String.mk (s.toList.map lowerChar)

/-- Value of a list of decimal digits. -/
def digitsToNat (cs : List Char) : Nat :=
  cs.foldl (fun a c => a * 10 + (c.toNat - 48)) 0

/-- JavaScript parseInt with radix 10 on a JS value: a number parses to
itself; a string is trimmed, an optional sign is read, then the longest
leading run of decimal digits; none models NaN (no digits, or a
non-string non-number argument). -/
def jsParseInt : JsVal → Option Int
  | .vnum n => some n
  | .vstr s =>
    let cs := (jsTrim s).toList
    let signAndRest : Int × List Char :=
      match cs with
      | '-' :: r => (-1, r)
      | '+' :: r => (1, r)
      | r => (1, r)
    let ds := signAndRest.2.takeWhile Char.isDigit
    if ds.isEmpty then none else some (signAndRest.1 * (digitsToNat ds : Int))
  | _ => none

/-- JavaScript String(v) conversion of a body value; null gives no
string (the field stays unset). -/
def jsValToString : JsVal → Option String
  | .vnull => none
  | .vstr s => some s
  | .vnum n => some (toString n)
  | .vbool b => some (toString b)

/-- Mongoose string cast of an optional field: absent and null cast to
no value, everything else to its string rendering. -/
def castString (v : Option JsVal) : Option String :=
  v.bind jsValToString

/-- Parse a complete string as a signed decimal integer (the JS Number
conversion restricted to the integer inputs the service deals with);
none models NaN. -/
def parseFullInt (s : String) : Option Int :=
  match s.toList with
  | [] => none
  | '-' :: rest =>
    if !rest.isEmpty && rest.all Char.isDigit then some (-(digitsToNat rest : Int)) else none
  | '+' :: rest =>
    if !rest.isEmpty && rest.all Char.isDigit then some ((digitsToNat rest : Int)) else none
  | cs =>
    if cs.all Char.isDigit then some ((digitsToNat cs : Int)) else none

/-- Mongoose Number cast of an optional field: absent and null cast to
no value, a number to itself, a boolean to 0/1, a string via the JS
Number conversion (empty string to 0, otherwise a full integer parse);
a failed conversion is a CastError, modelled as the error case. -/
def castNumberOpt : Option JsVal → Except Unit (Option Int)
  | none => .ok none
  | some .vnull => .ok none
  | some (.vnum n) => .ok (some n)
  | some (.vbool b) => .ok (some (if b then 1 else 0))
  | some (.vstr s) =>
    let t := jsTrim s
    if t == "" then .ok (some 0)
    else
      match parseFullInt t with
      | some n => .ok (some n)
      | none => .error ()

/-! ## The email regular expression of the Mongoose schema

The schema validates email against
/^\w+([\.-]?\w+)*@\w+([\.-]?\w+)*(\.\w\x7b2,3\x7d)+$/ .
We embed it as a regular-expression syntax tree and decide matching by
Brzozowski derivatives. -/

/-- Regular expressions over characters: empty language, empty string,
a character class, concatenation, alternation, Kleene star. -/
inductive Rx where
  | emp : Rx
  | eps : Rx
  | cls (p : Char → Bool) : Rx
  | cat (a b : Rx) : Rx
  | alt (a b : Rx) : Rx
  | star (a : Rx) : Rx

/-- Smart concatenation, collapsing the empty language and the empty
string. -/
def rcat : Rx → Rx → Rx
  | .emp, _ => .emp
  | _, .emp => .emp
  | .eps, b => b
  | a, .eps => a
  | a, b => .cat a b

/-- Smart alternation, collapsing the empty language. -/
def ralt : Rx → Rx → Rx
  | .emp, b => b
  | a, .emp => a
  | a, b => .alt a b

/-- Does the regular expression accept the empty string? -/
def nullable : Rx → Bool
  | .emp => false
  | .eps => true
  | .cls _ => false
  | .cat a b => nullable a && nullable b
  | .alt a b => nullable a || nullable b
  | .star _ => true

/-- Brzozowski derivative with respect to one character. -/
def rderiv : Rx → Char → Rx
  | .emp, _ => .emp
  | .eps, _ => .emp
  | .cls p, c => if p c then .eps else .emp
  | .cat a b, c =>
    if nullable a then ralt (rcat (rderiv a c) b) (rderiv b c)
    else rcat (rderiv a c) b
  | .alt a b, c => ralt (rderiv a c) (rderiv b c)
  | .star a, c => rcat (rderiv a c) (.star a)

/-- Anchored match of a whole string against a regular expression. -/
def rxMatch (r : Rx) (s : String) : Bool :=
  nullable (s.toList.foldl rderiv r)

/-- One or more repetitions. -/
def rxPlus (r : Rx) : Rx := .cat r (.star r)

/-- Zero or one repetition. -/
def rxOpt (r : Rx) : Rx := .alt r .eps

/-- The regex word class: alphanumeric or underscore. -/
def isWordChar (c : Char) : Bool := c.isAlphanum || c == '_'

/-- A word character. -/
def wordRx : Rx := .cls isWordChar

/-- A dot or hyphen separator. -/
def sepRx : Rx := .cls (fun c => c == '.' || c == '-')

/-- The local/domain name fragment of the schema regex. -/
def namePartRx : Rx :=
  .cat (rxPlus wordRx) (.star (.cat (rxOpt sepRx) (rxPlus wordRx)))

/-- One top-level-domain block of the schema regex: a dot followed by
two or three word characters. -/
def tldBlockRx : Rx :=
  .cat (.cls (fun c => c == '.')) (.cat wordRx (.cat wordRx (rxOpt wordRx)))

/-- The full email regex of the Mongoose schema. -/
def emailRx : Rx :=
  .cat namePartRx (.cat (.cls (fun c => c == '@')) (.cat namePartRx (rxPlus tldBlockRx)))

/-- Whether a string matches the schema email pattern. -/
def emailMatch (s : String) : Bool := rxMatch emailRx s

example : emailMatch "ann@ex.com" = true := by decide
example : emailMatch "bo@ex.com" = true := by decide
example : emailMatch "not-an-email" = false := by decide
example : emailMatch "a@b" = false := by decide
example : jsParseInt (.vstr "12abc") = some 12 := by decide
example : jsParseInt (.vstr "3.5") = some 3 := by decide
example : jsParseInt (.vstr "abc") = none := by decide
example : jsParseInt (.vstr "999999") = some 999999 := by decide
example : jsTrim "  hi " = "hi" := by decide
example : jsToLower "A@X.com" = "a@x.com" := by decide

/-! ## Response envelopes -/

/-- The JSON response envelope sent by the controllers, together with
the HTTP status code: status is the "status" field, message the
optional "message", results the optional "results" count, user / users
the payload under "data". -/
structure Resp (α : Type) where
  httpStatus : Nat
  status : String
  message : Option String := none
  results : Option Nat := none
  user : Option α := none
  users : Option (List α) := none
deriving Repr, DecidableEq

/-! ## The document store (MongoDB via Mongoose) -/

/-- A stored MongoDB user document.  The role is optional in storage
(it can be unset by writing null), though creation defaults it. -/
structure MUser where
  id : String
  name : String
  email : String
  age : Option Int
  role : Option String
  createdAt : Nat
  updatedAt : Nat
deriving Repr, DecidableEq

/-- The state of the MongoDB users collection. -/
structure MongoDB where
  users : List MUser
deriving Repr, DecidableEq

/-- The empty MongoDB collection. -/
def emptyMongo : MongoDB := ⟨[]⟩

/-- Syntactic validity of a MongoDB ObjectId string: exactly 24
hexadecimal characters.  Mongoose raises a CastError when asked to cast
any other string to an ObjectId. -/
def isValidObjectId (s : String) : Bool :=
  s.length == 24 &&
    s.toList.all (fun c => c.isDigit || ('a' ≤ c && c ≤ 'f') || ('A' ≤ c && c ≤ 'F'))

/-- The ways a Mongoose operation can reject: a CastError (bad value
for a path), a ValidationError (schema validator failed; error.code is
undefined), or a duplicate-key server error (error.code 11000). -/
inductive MongoErr where
  | castError : MongoErr
  | validationError : MongoErr
  | duplicateKey : MongoErr
deriving Repr, DecidableEq

/-- The Mongoose trim setter on name. -/
def nameSetter (s : String) : String := jsTrim s

/-- The Mongoose trim + lowercase setters on email. -/
def emailSetter (s : String) : String := jsToLower (jsTrim s)

/-- The role values allowed by the schema enum. -/
def roles : List String := ["USER", "ADMIN", "MODERATOR"]

/-- The document a successful User.create would insert (before the
store assigns id and timestamps). -/
structure MongoNewDoc where
  name : String
  email : String
  age : Option Int
  role : String
deriving Repr, DecidableEq

/-- Mongoose casting, setters, defaults and validators run by
User.create on the four schema paths: name is cast to a string,
trimmed, required, length 2 to 50; email is cast, trimmed, lowercased,
required, and must match the schema email regex; age is cast to a
number (CastError on failure) and must lie in 0 to 150; role defaults
to USER when unset and must belong to the enum. -/
def mongoValidateCreate (b : Body) : Except MongoErr MongoNewDoc :=
  match castNumberOpt b.age with
  | .error _ => .error .castError
  | .ok ageC =>
    let name := (castString b.name).map nameSetter
    let email := (castString b.email).map emailSetter
    let role := (castString b.role).getD "USER"
    match name, email with
    | some n, some e =>
      if n.length < 2 ∨ 50 < n.length then .error .validationError
      else if emailMatch e = false then .error .validationError
      else if ageC.any (fun a => decide (a < 0) || decide (150 < a)) then
        .error .validationError
      else if roles.contains role = false then .error .validationError
      else .ok ⟨n, e, ageC, role⟩
    | _, _ => .error .validationError

/-- User.create as executed against the collection: schema validation
first, then the insert, which the unique index on email rejects with
error code 11000 when the (normalized) email is already present. -/
def mongoCreateDoc (db : MongoDB) (b : Body) (newId : String) (now : Nat) :
    Except MongoErr (MUser × MongoDB) :=
  match mongoValidateCreate b with
  | .error e => .error e
  | .ok d =>
    if db.users.any (fun u => u.email == d.email) then .error .duplicateKey
    else
      let u : MUser := ⟨newId, d.name, d.email, d.age, some d.role, now, now⟩
      .ok (u, ⟨db.users ++ [u]⟩)

/-- POST /api/users/mongo: reject a falsy name or email with 400, then
run User.create; a duplicate-key error (code 11000) maps to 400 Email
already exists, any other error falls into the catch-all 500. -/
def createUserInMongo (db : MongoDB) (b : Body) (newId : String) (now : Nat) :
    Resp MUser × MongoDB :=
  if !jsTruthy b.name || !jsTruthy b.email then
    ({ httpStatus := 400, status := "error",
       message := some "Name and email are required" }, db)
  else
    match mongoCreateDoc db b newId now with
    | .ok (u, db') =>
      ({ httpStatus := 201, status := "success",
         message := some "User created successfully", user := some u }, db')
    | .error .duplicateKey =>
      ({ httpStatus := 400, status := "error",
         message := some "Email already exists" }, db)
    | .error _ =>
      ({ httpStatus := 500, status := "error",
         message := some "Failed to create user in MongoDB" }, db)

/-- GET /api/users/mongo: list all users. -/
def getAllUsersFromMongo (db : MongoDB) : Resp MUser :=
  { httpStatus := 200, status := "success",
    results := some db.users.length, users := some db.users }

/-- GET /api/users/mongo/:id: User.findById raises a CastError on a
malformed ObjectId, which the controller catch turns into 500; a
missing document gives 404; otherwise 200 with the user. -/
def getUserByIdFromMongo (db : MongoDB) (id : String) : Resp MUser :=
  if isValidObjectId id = false then
    { httpStatus := 500, status := "error",
      message := some "Failed to fetch user from MongoDB" }
  else
    match db.users.find? (fun u => u.id == id) with
    | none => { httpStatus := 404, status := "error", message := some "User not found" }
    | some u => { httpStatus := 200, status := "success", user := some u }

/-- The sparse update produced by a PUT body for findByIdAndUpdate:
each schema path is either untouched (outer none) or set; age and role
may also be set to null (inner none). -/
structure MongoUpdateSet where
  name : Option String
  email : Option String
  age : Option (Option Int)
  role : Option (Option String)
deriving Repr, DecidableEq

/-- Update handling of the name path with runValidators: absent leaves
it alone; null fails the required validator; any other value is cast to
a string, trimmed, and checked for length 2 to 50. -/
def updName : Option JsVal → Except MongoErr (Option String)
  | none => .ok none
  | some .vnull => .error .validationError
  | some v =>
    match jsValToString v with
    | none => .error .validationError
    | some s =>
      let n := nameSetter s
      if n.length < 2 ∨ 50 < n.length then .error .validationError else .ok (some n)

/-- Update handling of the email path with runValidators: absent leaves
it alone; null fails the required validator; any other value is cast,
trimmed, lowercased and matched against the schema regex. -/
def updEmail : Option JsVal → Except MongoErr (Option String)
  | none => .ok none
  | some .vnull => .error .validationError
  | some v =>
    match jsValToString v with
    | none => .error .validationError
    | some s =>
      let e := emailSetter s
      if emailMatch e then .ok (some e) else .error .validationError

/-- Update handling of the age path with runValidators: absent leaves
it alone; null unsets it; any other value is cast to a number
(CastError on failure) and range-checked. -/
def updAge : Option JsVal → Except MongoErr (Option (Option Int))
  | none => .ok none
  | some v =>
    match castNumberOpt (some v) with
    | .error _ => .error .castError
    | .ok none => .ok (some none)
    | .ok (some a) =>
      if decide (a < 0) || decide (150 < a) then .error .validationError
      else .ok (some (some a))

/-- Update handling of the role path with runValidators: absent leaves
it alone; null unsets it (the enum validator skips null); any other
value must belong to the enum. -/
def updRole : Option JsVal → Except MongoErr (Option (Option String))
  | none => .ok none
  | some .vnull => .ok (some none)
  | some v =>
    match jsValToString v with
    | none => .ok (some none)
    | some s => if roles.contains s then .ok (some (some s)) else .error .validationError

/-- The casts, setters and update validators findByIdAndUpdate runs on
the request body before touching the collection. -/
def mongoValidateUpdate (b : Body) : Except MongoErr MongoUpdateSet := do
  let n ← updName b.name
  let e ← updEmail b.email
  let a ← updAge b.age
  let r ← updRole b.role
  .ok ⟨n, e, a, r⟩

/-- Apply a sparse update to a stored document; timestamps refresh
updatedAt. -/
def applyMongoUpdate (u : MUser) (s : MongoUpdateSet) (now : Nat) : MUser :=
  { u with
    name := s.name.getD u.name
    email := s.email.getD u.email
    age := s.age.getD u.age
    role := s.role.getD u.role
    updatedAt := now }

/-- PUT /api/users/mongo/:id via findByIdAndUpdate with runValidators:
a malformed id or a cast/validation failure of the body rejects and is
caught as 500; a missing document gives 404; a unique-index violation
on the new email is an unhandled duplicate-key error, also 500;
otherwise 200 with the updated document. -/
def updateUserInMongo (db : MongoDB) (id : String) (b : Body) (now : Nat) :
    Resp MUser × MongoDB :=
  if isValidObjectId id = false then
    ({ httpStatus := 500, status := "error",
       message := some "Failed to update user in MongoDB" }, db)
  else
    match mongoValidateUpdate b with
    | .error _ =>
      ({ httpStatus := 500, status := "error",
         message := some "Failed to update user in MongoDB" }, db)
    | .ok s =>
      match db.users.find? (fun u => u.id == id) with
      | none =>
        ({ httpStatus := 404, status := "error", message := some "User not found" }, db)
      | some u =>
        let u' := applyMongoUpdate u s now
        if db.users.any (fun v => !(v.id == id) && v.email == u'.email) then
          ({ httpStatus := 500, status := "error",
             message := some "Failed to update user in MongoDB" }, db)
        else
          ({ httpStatus := 200, status := "success",
             message := some "User updated successfully", user := some u' },
           ⟨db.users.map (fun v => if v.id == id then u' else v)⟩)

/-- DELETE /api/users/mongo/:id via findByIdAndDelete: a malformed id
raises a CastError caught as 500; a missing document gives 404;
otherwise the document is removed and returned with 200. -/
def deleteUserFromMongo (db : MongoDB) (id : String) : Resp MUser × MongoDB :=
  if isValidObjectId id = false then
    ({ httpStatus := 500, status := "error",
       message := some "Failed to delete user from MongoDB" }, db)
  else
    match db.users.find? (fun u => u.id == id) with
    | none =>
      ({ httpStatus := 404, status := "error", message := some "User not found" }, db)
    | some u =>
      ({ httpStatus := 200, status := "success",
         message := some "User deleted successfully", user := some u },
       ⟨db.users.filter (fun v => !(v.id == id))⟩)

/-! ## The relational store (PostgreSQL via Prisma)

The relational User model (documented in DATA_FORMAT_GUIDE.md) has an
autoincrement integer id, required string name, required unique string
email, optional integer age, string role, and the two timestamps.  The
Prisma client checks argument types before issuing any query and the
database enforces the (case-sensitive) unique index on email. -/

/-- A stored PostgreSQL user row. -/
structure PUser where
  id : Int
  name : String
  email : String
  age : Option Int
  role : String
  createdAt : Nat
  updatedAt : Nat
deriving Repr, DecidableEq

/-- The state of the PostgreSQL users table: rows plus the
autoincrement counter. -/
structure PgDB where
  users : List PUser
  nextId : Int
deriving Repr, DecidableEq

/-- The empty users table. -/
def emptyPg : PgDB := ⟨[], 1⟩

/-- The data object passed to prisma.user.create. -/
structure PgNewData where
  name : String
  email : String
  age : Option Int
  role : String
deriving Repr, DecidableEq

/-- Building the prisma.user.create data object from the body: name and
email are passed through (the Prisma client rejects non-string values
for string columns before any query); age follows the controller
expression age ? parseInt(age) : null, where a NaN result is likewise
rejected by the client; role follows role || USER. -/
def pgCreateData (b : Body) : Except Unit PgNewData := do
  let n ← (match b.name with
    | some (.vstr s) => Except.ok s
    | _ => Except.error ())
  let e ← (match b.email with
    | some (.vstr s) => Except.ok s
    | _ => Except.error ())
  let a ← (if jsTruthy b.age then
      match b.age with
      | some v =>
        match jsParseInt v with
        | some k => Except.ok (some k)
        | none => Except.error ()
      | none => Except.error ()
    else Except.ok (none : Option Int))
  let r ← (if jsTruthy b.role then
      match b.role with
      | some (.vstr s) => Except.ok s
      | _ => Except.error ()
    else Except.ok "USER")
  return ⟨n, e, a, r⟩

/-- GET /api/users/postgres: list all users. -/
def getAllUsersFromPostgres (db : PgDB) : Resp PUser :=
  { httpStatus := 200, status := "success",
    results := some db.users.length, users := some db.users }

/-- GET /api/users/postgres/:id: parseInt the path id and reject NaN
with 400 Invalid user ID before querying; a missing row gives 404;
otherwise 200 with the user. -/
def getUserByIdFromPostgres (db : PgDB) (idStr : String) : Resp PUser :=
  match jsParseInt (.vstr idStr) with
  | none =>
    { httpStatus := 400, status := "error", message := some "Invalid user ID" }
  | some id =>
    match db.users.find? (fun u => u.id == id) with
    | none => { httpStatus := 404, status := "error", message := some "User not found" }
    | some u => { httpStatus := 200, status := "success", user := some u }

/-- POST /api/users/postgres: reject a falsy name or email with 400;
a client-side argument rejection (wrong type, NaN age) falls into the
catch-all 500; the unique-constraint violation P2002 on email maps to
400 Email already exists; otherwise the row is inserted with the next
id and returned with 201. -/
def createUserInPostgres (db : PgDB) (b : Body) (now : Nat) : Resp PUser × PgDB :=
  if !jsTruthy b.name || !jsTruthy b.email then
    ({ httpStatus := 400, status := "error",
       message := some "Name and email are required" }, db)
  else
    match pgCreateData b with
    | .error _ =>
      ({ httpStatus := 500, status := "error",
         message := some "Failed to create user in PostgreSQL" }, db)
    | .ok d =>
      if db.users.any (fun u => u.email == d.email) then
        ({ httpStatus := 400, status := "error",
           message := some "Email already exists" }, db)
      else
        let u : PUser := ⟨db.nextId, d.name, d.email, d.age, d.role, now, now⟩
        ({ httpStatus := 201, status := "success",
           message := some "User created successfully", user := some u },
         ⟨db.users ++ [u], db.nextId + 1⟩)

/-- The sparse data object the update controller builds: a field enters
only when its body value is truthy. -/
structure PgUpdateSet where
  name : Option String
  email : Option String
  age : Option Int
  role : Option String
deriving Repr, DecidableEq

/-- Building the prisma.user.update data object: each field is included
only if its body value is truthy (if (name) updateData.name = name and
so on, with age run through parseInt); a truthy non-string for a string
column or a NaN age is rejected by the Prisma client before any
query. -/
def pgUpdateData (b : Body) : Except Unit PgUpdateSet := do
  let n ← (if jsTruthy b.name then
      match b.name with
      | some (.vstr s) => Except.ok (some s)
      | _ => Except.error ()
    else Except.ok (none : Option String))
  let e ← (if jsTruthy b.email then
      match b.email with
      | some (.vstr s) => Except.ok (some s)
      | _ => Except.error ()
    else Except.ok (none : Option String))
  let a ← (if jsTruthy b.age then
      match b.age with
      | some v =>
        match jsParseInt v with
        | some k => Except.ok (some k)
        | none => Except.error ()
      | none => Except.error ()
    else Except.ok (none : Option Int))
  let r ← (if jsTruthy b.role then
      match b.role with
      | some (.vstr s) => Except.ok (some s)
      | _ => Except.error ()
    else Except.ok (none : Option String))
  return ⟨n, e, a, r⟩

/-- Apply the sparse update to a row; updatedAt refreshes. -/
def applyPgUpdate (u : PUser) (d : PgUpdateSet) (now : Nat) : PUser :=
  { u with
    name := d.name.getD u.name
    email := d.email.getD u.email
    age := match d.age with
      | some k => some k
      | none => u.age
    role := d.role.getD u.role
    updatedAt := now }

/-- PUT /api/users/postgres/:id: a NaN id gives 400 Invalid user ID
before anything else; a client-side argument rejection gives 500; a
missing row surfaces as P2025 and gives 404; a unique-email violation
(P2002) is unhandled here and gives 500; otherwise 200 with the
updated row. -/
def updateUserInPostgres (db : PgDB) (idStr : String) (b : Body) (now : Nat) :
    Resp PUser × PgDB :=
  match jsParseInt (.vstr idStr) with
  | none =>
    ({ httpStatus := 400, status := "error", message := some "Invalid user ID" }, db)
  | some id =>
    match pgUpdateData b with
    | .error _ =>
      ({ httpStatus := 500, status := "error",
         message := some "Failed to update user in PostgreSQL" }, db)
    | .ok d =>
      match db.users.find? (fun u => u.id == id) with
      | none =>
        ({ httpStatus := 404, status := "error", message := some "User not found" }, db)
      | some u =>
        let u' := applyPgUpdate u d now
        if db.users.any (fun v => !(v.id == id) && v.email == u'.email) then
          ({ httpStatus := 500, status := "error",
             message := some "Failed to update user in PostgreSQL" }, db)
        else
          ({ httpStatus := 200, status := "success",
             message := some "User updated successfully", user := some u' },
           ⟨db.users.map (fun v => if v.id == id then u' else v), db.nextId⟩)

/-- DELETE /api/users/postgres/:id: a NaN id gives 400 Invalid user ID;
a missing row surfaces as P2025 and gives 404; otherwise the row is
removed and returned with 200. -/
def deleteUserFromPostgres (db : PgDB) (idStr : String) : Resp PUser × PgDB :=
  match jsParseInt (.vstr idStr) with
  | none =>
    ({ httpStatus := 400, status := "error", message := some "Invalid user ID" }, db)
  | some id =>
    match db.users.find? (fun u => u.id == id) with
    | none =>
      ({ httpStatus := 404, status := "error", message := some "User not found" }, db)
    | some u =>
      ({ httpStatus := 200, status := "success",
         message := some "User deleted successfully", user := some u },
       ⟨db.users.filter (fun v => !(v.id == id)), db.nextId⟩)

/-! ## Claim theorems -/

/-- Claim C9: listAll on either adapter succeeds with HTTP 200 and the
envelope has status success, results equal to the number of returned
users, and the full user list as data; on an empty store results is 0.
(The only failure path of the handlers is the store-unavailable catch,
which is outside the store model.) -/
theorem c9_list_all (mdb : MongoDB) (pdb : PgDB) :
    getAllUsersFromMongo mdb =
      { httpStatus := 200, status := "success",
        results := some mdb.users.length, users := some mdb.users } ∧
    getAllUsersFromPostgres pdb =
      { httpStatus := 200, status := "success",
        results := some pdb.users.length, users := some pdb.users } ∧
    (getAllUsersFromMongo emptyMongo).results = some 0 ∧
    (getAllUsersFromPostgres emptyPg).results = some 0 :=
  ⟨rfl, rfl, rfl, rfl⟩

/-- Claim C1 counterexample: the id "abc" is a malformed ObjectId, yet
the document-store getById answers HTTP 500 (the CastError falls into
the catch-all), not 400 with "Invalid user ID" as the claim states. -/
theorem c1_counterexample :
    isValidObjectId "abc" = false ∧
    (getUserByIdFromMongo emptyMongo "abc").httpStatus = 500 ∧
    ¬ ((getUserByIdFromMongo emptyMongo "abc").httpStatus = 400 ∧
       (getUserByIdFromMongo emptyMongo "abc").message = some "Invalid user ID") ∧
    (updateUserInMongo emptyMongo "abc" {} 0).1.httpStatus = 500 ∧
    (deleteUserFromMongo emptyMongo "abc").1.httpStatus = 500 := by
  decide

/-- Claim C1 (amended): a request to the document-store getById, update
or delete whose id is a malformed ObjectId is answered with HTTP 500
and an error envelope (the Mongoose CastError is caught by the
catch-all handler), never with 400 InvalidId and never with 404. -/
theorem c1_malformed_objectid_gives_500 (db : MongoDB) (id : String) (b : Body) (now : Nat)
    (h : isValidObjectId id = false) :
    getUserByIdFromMongo db id =
      { httpStatus := 500, status := "error",
        message := some "Failed to fetch user from MongoDB" } ∧
    updateUserInMongo db id b now =
      ({ httpStatus := 500, status := "error",
         message := some "Failed to update user in MongoDB" }, db) ∧
    deleteUserFromMongo db id =
      ({ httpStatus := 500, status := "error",
         message := some "Failed to delete user from MongoDB" }, db) := by
  simp [getUserByIdFromMongo, updateUserInMongo, deleteUserFromMongo, h]

/-- Witness for C1 (amended), at the malformed id "abc" on the empty
collection. -/
theorem c1_witness :
    getUserByIdFromMongo emptyMongo "abc" =
      { httpStatus := 500, status := "error",
        message := some "Failed to fetch user from MongoDB" } ∧
    updateUserInMongo emptyMongo "abc" {} 0 =
      ({ httpStatus := 500, status := "error",
         message := some "Failed to update user in MongoDB" }, emptyMongo) ∧
    deleteUserFromMongo emptyMongo "abc" =
      ({ httpStatus := 500, status := "error",
         message := some "Failed to delete user from MongoDB" }, emptyMongo) :=
  c1_malformed_objectid_gives_500 emptyMongo "abc" {} 0 (by decide)

/-- Claim C2 counterexample: "12abc" is not the decimal representation
of an integer, yet parseInt truncates it to 12 and the relational
getById reaches the store and answers 200 for the stored row with id
12; likewise "3.5" is truncated to 3 and update reaches the store
(answering 404 from the store lookup), so neither request fails with
InvalidId. -/
theorem c2_counterexample :
    parseFullInt "12abc" = none ∧
    (getUserByIdFromPostgres ⟨[⟨12, "Pat", "a@x.com", some 25, "USER", 0, 0⟩], 13⟩
        "12abc").httpStatus = 200 ∧
    ¬ ((getUserByIdFromPostgres ⟨[⟨12, "Pat", "a@x.com", some 25, "USER", 0, 0⟩], 13⟩
        "12abc").message = some "Invalid user ID") ∧
    parseFullInt "3.5" = none ∧
    (updateUserInPostgres ⟨[⟨12, "Pat", "a@x.com", some 25, "USER", 0, 0⟩], 13⟩
        "3.5" {} 0).1.httpStatus = 404 := by
  decide

/-- Claim C2 (amended): the relational getById, update and delete
reject an id with 400 InvalidId before any store call exactly when
parseInt yields NaN on it (no leading integer numeral); an id with a
leading integer prefix, such as "12abc" or "3.5", is truncated to that
integer and passed to the store. -/
theorem c2_nan_id_rejected_before_store (db : PgDB) (idStr : String) (b : Body) (now : Nat)
    (h : jsParseInt (.vstr idStr) = none) :
    getUserByIdFromPostgres db idStr =
      { httpStatus := 400, status := "error", message := some "Invalid user ID" } ∧
    updateUserInPostgres db idStr b now =
      ({ httpStatus := 400, status := "error", message := some "Invalid user ID" }, db) ∧
    deleteUserFromPostgres db idStr =
      ({ httpStatus := 400, status := "error", message := some "Invalid user ID" }, db) := by
  simp [getUserByIdFromPostgres, updateUserInPostgres, deleteUserFromPostgres, h]

/-- Witness for C2 (amended), at the non-numeric id "abc" on the empty
table. -/
theorem c2_witness :
    getUserByIdFromPostgres emptyPg "abc" =
      { httpStatus := 400, status := "error", message := some "Invalid user ID" } ∧
    updateUserInPostgres emptyPg "abc" {} 0 =
      ({ httpStatus := 400, status := "error", message := some "Invalid user ID" }, emptyPg) ∧
    deleteUserFromPostgres emptyPg "abc" =
      ({ httpStatus := 400, status := "error", message := some "Invalid user ID" }, emptyPg) :=
  c2_nan_id_rejected_before_store emptyPg "abc" {} 0 (by decide)

/-- Claim C3 counterexample: a create payload with a present name and a
present but malformed email ("not-an-email") is answered by the
document-store create with HTTP 500 (the Mongoose ValidationError falls
into the catch-all), not 400; likewise a role outside the enumerated
set gives 500. -/
theorem c3_counterexample :
    emailMatch "not-an-email" = false ∧
    (createUserInMongo emptyMongo
        { name := some (.vstr "Jo"), email := some (.vstr "not-an-email") }
        "aaaaaaaaaaaaaaaaaaaaaaaa" 0).1.httpStatus = 500 ∧
    (createUserInMongo emptyMongo
        { name := some (.vstr "Jo"), email := some (.vstr "jo@ex.com"),
          role := some (.vstr "WIZARD") }
        "aaaaaaaaaaaaaaaaaaaaaaaa" 0).1.httpStatus = 500 := by
  decide

/-- Claim C3 (amended): a create payload with a JS-falsy name or email
is rejected by both adapters with 400 and the message "Name and email
are required"; but a payload with truthy name and email that fails the
document-store schema validation (malformed email, age outside 0-150,
role outside the enumerated set) is answered with HTTP 500, not 400. -/
theorem c3_create_validation_behaviour (mdb : MongoDB) (pdb : PgDB) (b : Body)
    (i : String) (t : Nat) :
    ((jsTruthy b.name = false ∨ jsTruthy b.email = false) →
      (createUserInMongo mdb b i t).1 =
        { httpStatus := 400, status := "error",
          message := some "Name and email are required" } ∧
      (createUserInPostgres pdb b t).1 =
        { httpStatus := 400, status := "error",
          message := some "Name and email are required" }) ∧
    (jsTruthy b.name = true → jsTruthy b.email = true →
      mongoValidateCreate b = .error .validationError →
      (createUserInMongo mdb b i t).1.httpStatus = 500 ∧
      (createUserInMongo mdb b i t).1.status = "error") := by
  constructor
  · rintro (h | h) <;> simp [createUserInMongo, createUserInPostgres, h]
  · intro h1 h2 h3
    simp [createUserInMongo, mongoCreateDoc, h1, h2, h3]

/-- Witness for C3 (amended): a body with no email gives the 400
required-fields response on both adapters, and the body with the
out-of-enum role "WIZARD" gives 500 on the document store. -/
theorem c3_witness :
    ((createUserInMongo emptyMongo { name := some (.vstr "Jo") } "i0" 0).1 =
        { httpStatus := 400, status := "error",
          message := some "Name and email are required" } ∧
      (createUserInPostgres emptyPg { name := some (.vstr "Jo") } 0).1 =
        { httpStatus := 400, status := "error",
          message := some "Name and email are required" }) ∧
    ((createUserInMongo emptyMongo
        { name := some (.vstr "Jo"), email := some (.vstr "jo@ex.com"),
          role := some (.vstr "WIZARD") } "i0" 0).1.httpStatus = 500 ∧
     (createUserInMongo emptyMongo
        { name := some (.vstr "Jo"), email := some (.vstr "jo@ex.com"),
          role := some (.vstr "WIZARD") } "i0" 0).1.status = "error") :=
  ⟨(c3_create_validation_behaviour emptyMongo emptyPg
      { name := some (.vstr "Jo") } "i0" 0).1 (Or.inr (by decide)),
   (c3_create_validation_behaviour emptyMongo emptyPg
      { name := some (.vstr "Jo"), email := some (.vstr "jo@ex.com"),
        role := some (.vstr "WIZARD") } "i0" 0).2 (by decide) (by decide) (by rfl)⟩

/-! ## Helper lemmas about the validation pipelines -/

/-- Inversion of a successful Mongoose create validation: each schema
path of the produced document comes from the corresponding cast and
setter of the body. -/
theorem mongoValidateCreate_ok_shape (b : Body) (d : MongoNewDoc)
    (h : mongoValidateCreate b = .ok d) :
    (castString b.name).map nameSetter = some d.name ∧
    (castString b.email).map emailSetter = some d.email ∧
    castNumberOpt b.age = .ok d.age ∧
    (castString b.role).getD "USER" = d.role := by
  simp only [mongoValidateCreate] at h
  split at h
  · exact Except.noConfusion h
  · split at h
    · split_ifs at h
      all_goals first
        | exact Except.noConfusion h
        | (injection h with h; subst h; simp_all)
    · exact Except.noConfusion h

/-- Inversion of a successful bind in the Except monad. -/
theorem exceptBind_ok {ε α β : Type} {x : Except ε α} {f : α → Except ε β} {v : β}
    (h : x >>= f = Except.ok v) : ∃ a, x = Except.ok a ∧ f a = Except.ok v := by
  cases x with
  | error e => simp [Bind.bind, Except.bind] at h
  | ok a => exact ⟨a, rfl, by simpa [Bind.bind, Except.bind] using h⟩

/-- Inversion of a successfully built prisma.user.create data object:
name and email were string body values passed through unchanged, a
falsy age or role was defaulted, and a truthy age went through
parseInt. -/
theorem pgCreateData_ok_shape (b : Body) (pd : PgNewData)
    (h : pgCreateData b = .ok pd) :
    b.name = some (.vstr pd.name) ∧
    b.email = some (.vstr pd.email) ∧
    (jsTruthy b.age = false → pd.age = none) ∧
    (∀ v, b.age = some v → jsTruthy b.age = true → jsParseInt v = pd.age) ∧
    (jsTruthy b.role = false → pd.role = "USER") ∧
    (∀ s, b.role = some (.vstr s) → jsTruthy b.role = true → pd.role = s) := by
  unfold pgCreateData at h
  obtain ⟨n, hn, h⟩ := exceptBind_ok h
  obtain ⟨e, he, h⟩ := exceptBind_ok h
  obtain ⟨a, ha, h⟩ := exceptBind_ok h
  obtain ⟨r, hr, h⟩ := exceptBind_ok h
  simp only [pure, Except.pure] at h
  injection h with h
  subst h
  refine ⟨?_, ?_, ?_, ?_, ?_, ?_⟩
  · split at hn
    · injection hn with hn; subst hn; assumption
    · exact Except.noConfusion hn
  · split at he
    · injection he with he; subst he; assumption
    · exact Except.noConfusion he
  · intro hfa
    rw [hfa] at ha
    simp at ha
    simp [ha]
  · intro v hv hta
    rw [hta, hv] at ha
    simp at ha
    split at ha
    · injection ha with ha
      simp_all
    · exact Except.noConfusion ha
  · intro hfr
    rw [hfr] at hr
    simp at hr
    simp [hr]
  · intro s hs htr
    rw [htr, hs] at hr
    simp at hr
    simp [hr]

/-- Inversion of a successfully built prisma.user.update data object:
a falsy body field is excluded from the sparse update set. -/
theorem pgUpdateData_ok_shape (b : Body) (d : PgUpdateSet)
    (h : pgUpdateData b = .ok d) :
    (jsTruthy b.name = false → d.name = none) ∧
    (jsTruthy b.email = false → d.email = none) ∧
    (jsTruthy b.age = false → d.age = none) ∧
    (jsTruthy b.role = false → d.role = none) := by
  unfold pgUpdateData at h
  obtain ⟨n, hn, h⟩ := exceptBind_ok h
  obtain ⟨e, he, h⟩ := exceptBind_ok h
  obtain ⟨a, ha, h⟩ := exceptBind_ok h
  obtain ⟨r, hr, h⟩ := exceptBind_ok h
  simp only [pure, Except.pure] at h
  injection h with h
  subst h
  refine ⟨?_, ?_, ?_, ?_⟩
  · intro hf; rw [hf] at hn; simp at hn; simp [hn]
  · intro hf; rw [hf] at he; simp at he; simp [he]
  · intro hf; rw [hf] at ha; simp at ha; simp [ha]
  · intro hf; rw [hf] at hr; simp at hr; simp [hr]

/-- Inversion of a successful Mongoose update validation: it is the
per-path update validators, one field at a time. -/
theorem mongoValidateUpdate_ok_shape (b : Body) (s : MongoUpdateSet)
    (h : mongoValidateUpdate b = .ok s) :
    updName b.name = .ok s.name ∧ updEmail b.email = .ok s.email ∧
    updAge b.age = .ok s.age ∧ updRole b.role = .ok s.role := by
  unfold mongoValidateUpdate at h
  obtain ⟨n, hn, h⟩ := exceptBind_ok h
  obtain ⟨e, he, h⟩ := exceptBind_ok h
  obtain ⟨a, ha, h⟩ := exceptBind_ok h
  obtain ⟨r, hr, h⟩ := exceptBind_ok h
  injection h with h
  subst h
  exact ⟨hn, he, ha, hr⟩

/-- Inversion of a 200 answer of the document-store update: the id was
well formed, the body validated to an update set, the document was
found, and the returned user is the document with that update
applied. -/
theorem updateUserInMongo_200_inv (db : MongoDB) (id : String) (b : Body) (now : Nat)
    (h200 : (updateUserInMongo db id b now).1.httpStatus = 200) :
    isValidObjectId id = true ∧
    ∃ s mu, mongoValidateUpdate b = .ok s ∧
      db.users.find? (fun u => u.id == id) = some mu ∧
      (updateUserInMongo db id b now).1.user = some (applyMongoUpdate mu s now) := by
  unfold updateUserInMongo at h200 ⊢
  split at h200
  · simp at h200
  · next hc =>
    have hvid : isValidObjectId id = true := by
      cases hs : isValidObjectId id
      · exact absurd hs hc
      · rfl
    refine ⟨hvid, ?_⟩
    simp only [if_neg hc]
    split at h200
    · simp at h200
    · next s hs =>
      split at h200
      · simp at h200
      · next mu hf =>
        rw [hs, hf]
        by_cases hdup :
            (db.users.any fun v => !v.id == id && v.email == (applyMongoUpdate mu s now).email) = true
        · simp [hdup] at h200
        · simp [eq_false hdup]

/-- Inversion of a 200 answer of the relational update: the id parsed,
the body built a sparse update set, the row was found, and the returned
user is the row with that update applied. -/
theorem updateUserInPostgres_200_inv (db : PgDB) (idStr : String) (b : Body) (now : Nat)
    (h200 : (updateUserInPostgres db idStr b now).1.httpStatus = 200) :
    ∃ pid d pu, jsParseInt (.vstr idStr) = some pid ∧
      pgUpdateData b = .ok d ∧
      db.users.find? (fun u => u.id == pid) = some pu ∧
      (updateUserInPostgres db idStr b now).1.user = some (applyPgUpdate pu d now) := by
  unfold updateUserInPostgres at h200 ⊢
  split at h200
  · simp at h200
  · next pid hpid =>
    rw [hpid]
    split at h200
    · simp at h200
    · next d hd =>
      rw [hd]
      split at h200
      · simp at h200
      · next pu hf =>
        by_cases hdup :
            (db.users.any fun v => !v.id == pid && v.email == (applyPgUpdate pu d now).email) = true
        · simp [hdup] at h200
        · simp [eq_false hdup]
          exact ⟨pu, hf, rfl⟩

/-- Claim C4 counterexample: two successive relational creates whose
emails are equal under case-insensitive comparison ("a@x.com" then
"A@X.com") both succeed with 201 — the second does not fail with
DuplicateKey — and the second record keeps the email exactly as
supplied, not lowercased. -/
theorem c4_counterexample :
    jsToLower "A@X.com" = "a@x.com" ∧
    (createUserInPostgres emptyPg
        { name := some (.vstr "Al"), email := some (.vstr "a@x.com") } 0).1.httpStatus = 201 ∧
    (createUserInPostgres
        (createUserInPostgres emptyPg
          { name := some (.vstr "Al"), email := some (.vstr "a@x.com") } 0).2
        { name := some (.vstr "Bo"), email := some (.vstr "A@X.com") } 1).1.httpStatus = 201 ∧
    ¬ ((createUserInPostgres
        (createUserInPostgres emptyPg
          { name := some (.vstr "Al"), email := some (.vstr "a@x.com") } 0).2
        { name := some (.vstr "Bo"), email := some (.vstr "A@X.com") } 1).1.message =
      some "Email already exists") ∧
    ((createUserInPostgres
        (createUserInPostgres emptyPg
          { name := some (.vstr "Al"), email := some (.vstr "a@x.com") } 0).2
        { name := some (.vstr "Bo"), email := some (.vstr "A@X.com") } 1).1.user.map
      PUser.email) = some "A@X.com" := by
  decide

/-- Claim C4 (amended): the document store lowercases emails before
storage, so a second create whose normalized email is already stored
fails with DuplicateKey (400, "Email already exists"); the relational
store keeps emails exactly as supplied, so only a second create whose
email equals a stored one verbatim (case-sensitively) fails with
DuplicateKey. -/
theorem c4_duplicate_email_case_sensitivity
    (mdb : MongoDB) (pdb : PgDB) (b : Body) (i : String) (t : Nat)
    (d : MongoNewDoc) (pd : PgNewData) (s : String) :
    (jsTruthy b.name = true → jsTruthy b.email = true →
      mongoValidateCreate b = .ok d →
      (∃ u ∈ mdb.users, u.email = d.email) →
      (createUserInMongo mdb b i t).1 =
        { httpStatus := 400, status := "error", message := some "Email already exists" }) ∧
    (b.email = some (.vstr s) → mongoValidateCreate b = .ok d → d.email = emailSetter s) ∧
    (jsTruthy b.name = true → jsTruthy b.email = true →
      pgCreateData b = .ok pd →
      (∃ u ∈ pdb.users, u.email = pd.email) →
      (createUserInPostgres pdb b t).1 =
        { httpStatus := 400, status := "error", message := some "Email already exists" }) ∧
    (b.email = some (.vstr s) → pgCreateData b = .ok pd → pd.email = s) := by
  refine ⟨?_, ?_, ?_, ?_⟩
  · rintro h1 h2 hval ⟨u, hu, hue⟩
    have hany : mdb.users.any (fun v => v.email == d.email) = true :=
      List.any_eq_true.mpr ⟨u, hu, by simp [hue]⟩
    simp [createUserInMongo, mongoCreateDoc, h1, h2, hval, hany]
  · intro hbe hval
    obtain ⟨-, he, -, -⟩ := mongoValidateCreate_ok_shape b d hval
    rw [hbe] at he
    simp [castString, jsValToString] at he
    exact he.symm
  · rintro h1 h2 hval ⟨u, hu, hue⟩
    have hany : pdb.users.any (fun v => v.email == pd.email) = true :=
      List.any_eq_true.mpr ⟨u, hu, by simp [hue]⟩
    simp [createUserInPostgres, h1, h2, hval, hany]
  · intro hbe hval
    obtain ⟨-, he, -, -, -, -⟩ := pgCreateData_ok_shape b pd hval
    have := hbe.symm.trans he
    injection this with this
    injection this with this
    exact this.symm

/-- Witness for C4 (amended): the document store rejects the
differently-cased duplicate "ANN@EX.com" of stored "ann@ex.com" with
400, the relational store rejects the verbatim duplicate "ANN@EX.com"
of stored "ANN@EX.com" with 400, and the normalization facts hold. -/
theorem c4_witness :
    (createUserInMongo
        ⟨[⟨"cccccccccccccccccccccccc", "Ann", "ann@ex.com", none, some "USER", 0, 0⟩]⟩
        { name := some (.vstr "Bob"), email := some (.vstr "ANN@EX.com") } "i1" 3).1 =
      { httpStatus := 400, status := "error", message := some "Email already exists" } ∧
    (⟨"Bob", "ann@ex.com", none, "USER"⟩ : MongoNewDoc).email = emailSetter "ANN@EX.com" ∧
    (createUserInPostgres ⟨[⟨7, "Qi", "ANN@EX.com", none, "USER", 0, 0⟩], 8⟩
        { name := some (.vstr "Bob"), email := some (.vstr "ANN@EX.com") } 3).1 =
      { httpStatus := 400, status := "error", message := some "Email already exists" } ∧
    (⟨"Bob", "ANN@EX.com", none, "USER"⟩ : PgNewData).email = "ANN@EX.com" := by
  obtain ⟨h1, h2, h3, h4⟩ := c4_duplicate_email_case_sensitivity
    ⟨[⟨"cccccccccccccccccccccccc", "Ann", "ann@ex.com", none, some "USER", 0, 0⟩]⟩
    ⟨[⟨7, "Qi", "ANN@EX.com", none, "USER", 0, 0⟩], 8⟩
    { name := some (.vstr "Bob"), email := some (.vstr "ANN@EX.com") } "i1" 3
    ⟨"Bob", "ann@ex.com", none, "USER"⟩ ⟨"Bob", "ANN@EX.com", none, "USER"⟩ "ANN@EX.com"
  exact ⟨h1 (by decide) (by decide) (by rfl)
           ⟨⟨"cccccccccccccccccccccccc", "Ann", "ann@ex.com", none, some "USER", 0, 0⟩,
             by decide, rfl⟩,
         h2 rfl (by rfl),
         h3 (by decide) (by decide) (by rfl)
           ⟨⟨7, "Qi", "ANN@EX.com", none, "USER", 0, 0⟩, by decide, rfl⟩,
         h4 rfl (by rfl)⟩

/-- Claim C5: after a successful (HTTP 200) partial update on either
adapter, every field absent from the payload keeps its previous value
in the returned record, and the relational sparse update set contains
no entry for an absent field (absent fields are never overwritten with
null or defaults). -/
theorem c5_partial_update_preserves_absent_fields
    (mdb : MongoDB) (pdb : PgDB) (mid idStr : String) (b : Body) (now : Nat)
    (mu mu' : MUser) (pu pu' : PUser) (pid : Int) (d : PgUpdateSet) :
    (mdb.users.find? (fun u => u.id == mid) = some mu →
     (updateUserInMongo mdb mid b now).1.httpStatus = 200 →
     (updateUserInMongo mdb mid b now).1.user = some mu' →
     (b.name = none → mu'.name = mu.name) ∧
     (b.email = none → mu'.email = mu.email) ∧
     (b.age = none → mu'.age = mu.age) ∧
     (b.role = none → mu'.role = mu.role)) ∧
    (jsParseInt (.vstr idStr) = some pid →
     pdb.users.find? (fun u => u.id == pid) = some pu →
     (updateUserInPostgres pdb idStr b now).1.httpStatus = 200 →
     (updateUserInPostgres pdb idStr b now).1.user = some pu' →
     (b.name = none → pu'.name = pu.name) ∧
     (b.email = none → pu'.email = pu.email) ∧
     (b.age = none → pu'.age = pu.age) ∧
     (b.role = none → pu'.role = pu.role)) ∧
    (pgUpdateData b = .ok d →
     (b.name = none → d.name = none) ∧
     (b.email = none → d.email = none) ∧
     (b.age = none → d.age = none) ∧
     (b.role = none → d.role = none)) := by
  refine ⟨?_, ?_, ?_⟩
  · intro hf h200 huser
    obtain ⟨hvid, s, mu0, hs, hf0, hu0⟩ := updateUserInMongo_200_inv mdb mid b now h200
    have hmu : mu0 = mu := by
      have := hf0.symm.trans hf
      injection this
    subst hmu
    rw [hu0] at huser
    injection huser with huser
    obtain ⟨hn, he, ha, hr⟩ := mongoValidateUpdate_ok_shape b s hs
    refine ⟨?_, ?_, ?_, ?_⟩ <;> intro hfield
    · rw [hfield] at hn; simp [updName] at hn
      rw [← huser]; simp [applyMongoUpdate, ← hn]
    · rw [hfield] at he; simp [updEmail] at he
      rw [← huser]; simp [applyMongoUpdate, ← he]
    · rw [hfield] at ha; simp [updAge] at ha
      rw [← huser]; simp [applyMongoUpdate, ← ha]
    · rw [hfield] at hr; simp [updRole] at hr
      rw [← huser]; simp [applyMongoUpdate, ← hr]
  · intro hpid hf h200 huser
    obtain ⟨pid0, d0, pu0, hpid0, hd0, hf0, hu0⟩ :=
      updateUserInPostgres_200_inv pdb idStr b now h200
    have hp : pid0 = pid := by
      have := hpid0.symm.trans hpid
      injection this
    subst hp
    have hpu : pu0 = pu := by
      have := hf0.symm.trans hf
      injection this
    subst hpu
    rw [hu0] at huser
    injection huser with huser
    obtain ⟨hn, he, ha, hr⟩ := pgUpdateData_ok_shape b d0 hd0
    refine ⟨?_, ?_, ?_, ?_⟩ <;> intro hfield
    · rw [← huser]; simp [applyPgUpdate, hn (by rw [hfield]; rfl)]
    · rw [← huser]; simp [applyPgUpdate, he (by rw [hfield]; rfl)]
    · rw [← huser]; simp [applyPgUpdate, ha (by rw [hfield]; rfl)]
    · rw [← huser]; simp [applyPgUpdate, hr (by rw [hfield]; rfl)]
  · intro hd
    obtain ⟨hn, he, ha, hr⟩ := pgUpdateData_ok_shape b d hd
    refine ⟨?_, ?_, ?_, ?_⟩ <;> intro hfield
    · exact hn (by rw [hfield]; rfl)
    · exact he (by rw [hfield]; rfl)
    · exact ha (by rw [hfield]; rfl)
    · exact hr (by rw [hfield]; rfl)

/-- Witness for C5: updating only the age of a stored user on each
adapter returns a record whose name is unchanged, and the sparse
relational update set for that payload has no name entry. -/
theorem c5_witness :
    ((⟨"aaaaaaaaaaaaaaaaaaaaaaaa", "Xy", "x@ex.com", some 26, some "USER", 0, 7⟩ : MUser).name =
       (⟨"aaaaaaaaaaaaaaaaaaaaaaaa", "Xy", "x@ex.com", some 25, some "USER", 0, 0⟩ : MUser).name) ∧
    ((⟨12, "Pat", "a@x.com", some 26, "USER", 0, 7⟩ : PUser).name =
       (⟨12, "Pat", "a@x.com", some 25, "USER", 0, 0⟩ : PUser).name) ∧
    (⟨none, none, some 26, none⟩ : PgUpdateSet).name = none := by
  obtain ⟨h1, h2, h3⟩ := c5_partial_update_preserves_absent_fields
    ⟨[⟨"aaaaaaaaaaaaaaaaaaaaaaaa", "Xy", "x@ex.com", some 25, some "USER", 0, 0⟩]⟩
    ⟨[⟨12, "Pat", "a@x.com", some 25, "USER", 0, 0⟩], 13⟩
    "aaaaaaaaaaaaaaaaaaaaaaaa" "12" { age := some (.vnum 26) } 7
    ⟨"aaaaaaaaaaaaaaaaaaaaaaaa", "Xy", "x@ex.com", some 25, some "USER", 0, 0⟩
    ⟨"aaaaaaaaaaaaaaaaaaaaaaaa", "Xy", "x@ex.com", some 26, some "USER", 0, 7⟩
    ⟨12, "Pat", "a@x.com", some 25, "USER", 0, 0⟩
    ⟨12, "Pat", "a@x.com", some 26, "USER", 0, 7⟩
    12 ⟨none, none, some 26, none⟩
  exact ⟨(h1 (by decide) (by decide) (by decide)).1 rfl,
         (h2 (by decide) (by decide) (by decide) (by decide)).1 rfl,
         (h3 (by rfl)).1 rfl⟩

/-- Claim C6 counterexample: the well-formed id "5" matches no row of
the empty relational store, yet an update call carrying the payload
age "abc" (whose parseInt is NaN) is answered with HTTP 500, not 404
"User not found" as the claim states for every such call. -/
theorem c6_counterexample :
    jsParseInt (.vstr "5") = some 5 ∧ emptyPg.users = [] ∧
    (updateUserInPostgres emptyPg "5" { age := some (.vstr "abc") } 0).1.httpStatus = 500 ∧
    ¬ ((updateUserInPostgres emptyPg "5" { age := some (.vstr "abc") } 0).1.httpStatus = 404 ∧
       (updateUserInPostgres emptyPg "5" { age := some (.vstr "abc") } 0).1.message =
         some "User not found") := by
  decide

/-- Claim C6 (amended): with a well-formed id matching no stored
record, getById and delete answer 404 with the envelope error/"User not
found" on both backends, and update does so as well provided its
payload passes the client-side casts and validators (an invalid payload
is rejected with 500 before the missing record is noticed). -/
theorem c6_wellformed_absent_id_not_found
    (mdb : MongoDB) (pdb : PgDB) (id idStr : String) (b : Body) (now : Nat)
    (pid : Int) (s : MongoUpdateSet) (d : PgUpdateSet) :
    (isValidObjectId id = true →
     mdb.users.find? (fun u => u.id == id) = none →
     getUserByIdFromMongo mdb id =
       { httpStatus := 404, status := "error", message := some "User not found" } ∧
     deleteUserFromMongo mdb id =
       ({ httpStatus := 404, status := "error", message := some "User not found" }, mdb) ∧
     (mongoValidateUpdate b = .ok s →
      updateUserInMongo mdb id b now =
        ({ httpStatus := 404, status := "error", message := some "User not found" }, mdb))) ∧
    (jsParseInt (.vstr idStr) = some pid →
     pdb.users.find? (fun u => u.id == pid) = none →
     getUserByIdFromPostgres pdb idStr =
       { httpStatus := 404, status := "error", message := some "User not found" } ∧
     deleteUserFromPostgres pdb idStr =
       ({ httpStatus := 404, status := "error", message := some "User not found" }, pdb) ∧
     (pgUpdateData b = .ok d →
      updateUserInPostgres pdb idStr b now =
        ({ httpStatus := 404, status := "error", message := some "User not found" }, pdb))) := by
  constructor
  · intro hvid hfind
    refine ⟨?_, ?_, ?_⟩
    · simp [getUserByIdFromMongo, hvid, hfind]
    · simp [deleteUserFromMongo, hvid, hfind]
    · intro hs; simp [updateUserInMongo, hvid, hs, hfind]
  · intro hpid hfind
    refine ⟨?_, ?_, ?_⟩
    · simp [getUserByIdFromPostgres, hpid, hfind]
    · simp [deleteUserFromPostgres, hpid, hfind]
    · intro hd; simp [updateUserInPostgres, hpid, hd, hfind]

/-- Witness for C6 (amended): all six operations at concrete
well-formed absent ids (a 24-hex id on the empty collection, "999999"
on the empty table) with the empty update payload answer 404. -/
theorem c6_witness :
    getUserByIdFromMongo emptyMongo "aaaaaaaaaaaaaaaaaaaaaaaa" =
      { httpStatus := 404, status := "error", message := some "User not found" } ∧
    deleteUserFromMongo emptyMongo "aaaaaaaaaaaaaaaaaaaaaaaa" =
      ({ httpStatus := 404, status := "error", message := some "User not found" }, emptyMongo) ∧
    updateUserInMongo emptyMongo "aaaaaaaaaaaaaaaaaaaaaaaa" {} 0 =
      ({ httpStatus := 404, status := "error", message := some "User not found" }, emptyMongo) ∧
    getUserByIdFromPostgres emptyPg "999999" =
      { httpStatus := 404, status := "error", message := some "User not found" } ∧
    deleteUserFromPostgres emptyPg "999999" =
      ({ httpStatus := 404, status := "error", message := some "User not found" }, emptyPg) ∧
    updateUserInPostgres emptyPg "999999" {} 0 =
      ({ httpStatus := 404, status := "error", message := some "User not found" }, emptyPg) := by
  obtain ⟨hm, hp⟩ := c6_wellformed_absent_id_not_found emptyMongo emptyPg
    "aaaaaaaaaaaaaaaaaaaaaaaa" "999999" {} 0 999999
    ⟨none, none, none, none⟩ ⟨none, none, none, none⟩
  obtain ⟨g1, g2, g3⟩ := hm (by decide) (by decide)
  obtain ⟨g4, g5, g6⟩ := hp (by decide) (by decide)
  exact ⟨g1, g2, g3 (by rfl), g4, g5, g6 (by rfl)⟩

/-- Claim C7: a create payload with a valid name and email and no role
succeeds with 201, status success and the creation message, and the
returned record's role is USER, on both adapters. -/
theorem c7_role_defaults_to_user
    (mdb : MongoDB) (pdb : PgDB) (b : Body) (i : String) (t : Nat)
    (d : MongoNewDoc) (pd : PgNewData) :
    (b.role = none → jsTruthy b.name = true → jsTruthy b.email = true →
     mongoValidateCreate b = .ok d →
     mdb.users.any (fun u => u.email == d.email) = false →
     (createUserInMongo mdb b i t).1.httpStatus = 201 ∧
     (createUserInMongo mdb b i t).1.status = "success" ∧
     (createUserInMongo mdb b i t).1.message = some "User created successfully" ∧
     ((createUserInMongo mdb b i t).1.user.map MUser.role) = some (some "USER")) ∧
    (b.role = none → jsTruthy b.name = true → jsTruthy b.email = true →
     pgCreateData b = .ok pd →
     pdb.users.any (fun u => u.email == pd.email) = false →
     (createUserInPostgres pdb b t).1.httpStatus = 201 ∧
     (createUserInPostgres pdb b t).1.status = "success" ∧
     (createUserInPostgres pdb b t).1.message = some "User created successfully" ∧
     ((createUserInPostgres pdb b t).1.user.map PUser.role) = some "USER") := by
  constructor
  · intro hrole h1 h2 hval hdup
    have hr : d.role = "USER" := by
      obtain ⟨-, -, -, hr⟩ := mongoValidateCreate_ok_shape b d hval
      rw [hrole] at hr
      simpa [castString] using hr.symm
    simp [createUserInMongo, mongoCreateDoc, h1, h2, hval, hdup, hr]
  · intro hrole h1 h2 hval hdup
    have hr : pd.role = "USER" := by
      obtain ⟨-, -, -, -, hr, -⟩ := pgCreateData_ok_shape b pd hval
      exact hr (by rw [hrole]; rfl)
    simp [createUserInPostgres, h1, h2, hval, hdup, hr]

/-- Witness for C7: creating Ann with only name and email on the empty
stores gives 201 and role USER on both adapters. -/
theorem c7_witness :
    ((createUserInMongo emptyMongo
        { name := some (.vstr "Ann"), email := some (.vstr "ann@ex.com") } "i2" 4).1.httpStatus =
       201 ∧
     (createUserInMongo emptyMongo
        { name := some (.vstr "Ann"), email := some (.vstr "ann@ex.com") } "i2" 4).1.status =
       "success" ∧
     (createUserInMongo emptyMongo
        { name := some (.vstr "Ann"), email := some (.vstr "ann@ex.com") } "i2" 4).1.message =
       some "User created successfully" ∧
     ((createUserInMongo emptyMongo
        { name := some (.vstr "Ann"), email := some (.vstr "ann@ex.com") } "i2" 4).1.user.map
       MUser.role) = some (some "USER")) ∧
    ((createUserInPostgres emptyPg
        { name := some (.vstr "Ann"), email := some (.vstr "ann@ex.com") } 4).1.httpStatus =
       201 ∧
     (createUserInPostgres emptyPg
        { name := some (.vstr "Ann"), email := some (.vstr "ann@ex.com") } 4).1.status =
       "success" ∧
     (createUserInPostgres emptyPg
        { name := some (.vstr "Ann"), email := some (.vstr "ann@ex.com") } 4).1.message =
       some "User created successfully" ∧
     ((createUserInPostgres emptyPg
        { name := some (.vstr "Ann"), email := some (.vstr "ann@ex.com") } 4).1.user.map
       PUser.role) = some "USER") := by
  obtain ⟨h1, h2⟩ := c7_role_defaults_to_user emptyMongo emptyPg
    { name := some (.vstr "Ann"), email := some (.vstr "ann@ex.com") } "i2" 4
    ⟨"Ann", "ann@ex.com", none, "USER"⟩ ⟨"Ann", "ann@ex.com", none, "USER"⟩
  exact ⟨h1 rfl (by decide) (by decide) (by rfl) (by decide),
         h2 rfl (by decide) (by decide) (by rfl) (by decide)⟩

/-- Claim C8: when the relational create receives age as a numeric
string, the age of the built data object, and of the stored and
returned record, is the corresponding integer. -/
theorem c8_age_string_coerced_to_int
    (pdb : PgDB) (b : Body) (t : Nat) (sAge : String) (m : Int) (pd : PgNewData)
    (hage : b.age = some (.vstr sAge))
    (hm : jsParseInt (.vstr sAge) = some m)
    (h1 : jsTruthy b.name = true) (h2 : jsTruthy b.email = true)
    (hval : pgCreateData b = .ok pd)
    (hdup : pdb.users.any (fun u => u.email == pd.email) = false) :
    pd.age = some m ∧
    (createUserInPostgres pdb b t).1.httpStatus = 201 ∧
    ((createUserInPostgres pdb b t).1.user.map PUser.age) = some (some m) := by
  have htr : jsTruthy b.age = true := by
    rw [hage]
    by_cases hs : sAge = ""
    · rw [hs] at hm
      have hnone : jsParseInt (.vstr "") = none := rfl
      rw [hnone] at hm
      exact Option.noConfusion hm
    · simp [jsTruthy, hs]
  have hpd : pd.age = some m := by
    obtain ⟨-, -, -, hshape, -, -⟩ := pgCreateData_ok_shape b pd hval
    exact ((hm.symm.trans (hshape (.vstr sAge) hage htr))).symm
  refine ⟨hpd, ?_, ?_⟩ <;> simp [createUserInPostgres, h1, h2, hval, hdup, hpd]

/-- Witness for C8: creating Bo with age "30" on the empty table gives
201 and the stored age is the integer 30. -/
theorem c8_witness :
    (⟨"Bo", "bo@ex.com", some 30, "USER"⟩ : PgNewData).age = some 30 ∧
    (createUserInPostgres emptyPg
        { name := some (.vstr "Bo"), email := some (.vstr "bo@ex.com"),
          age := some (.vstr "30") } 4).1.httpStatus = 201 ∧
    ((createUserInPostgres emptyPg
        { name := some (.vstr "Bo"), email := some (.vstr "bo@ex.com"),
          age := some (.vstr "30") } 4).1.user.map PUser.age) = some (some 30) :=
  c8_age_string_coerced_to_int emptyPg
    { name := some (.vstr "Bo"), email := some (.vstr "bo@ex.com"), age := some (.vstr "30") }
    4 "30" 30 ⟨"Bo", "bo@ex.com", some 30, "USER"⟩
    rfl (by decide) (by decide) (by decide) (by rfl) (by decide)

/-- Claim C10 counterexample: on a stored row with age 25, an update
whose payload carries the string "0" for age succeeds with 200 and the
returned record has age 0 — so age can be set to 0 via update, contrary
to the claim (the string "0" is truthy and parseInt gives 0). -/
theorem c10_counterexample :
    (updateUserInPostgres ⟨[⟨12, "Pat", "a@x.com", some 25, "USER", 0, 0⟩], 13⟩ "12"
        { age := some (.vstr "0") } 9).1.httpStatus = 200 ∧
    ((updateUserInPostgres ⟨[⟨12, "Pat", "a@x.com", some 25, "USER", 0, 0⟩], 13⟩ "12"
        { age := some (.vstr "0") } 9).1.user.map PUser.age) = some (some 0) := by
  decide

/-- Claim C10 (amended): every supplied falsy field (the number 0 for
age, empty strings, null, false) is excluded from the relational sparse
update set; in particular an update with the numeric payload age 0 on
an existing record succeeds and leaves age unchanged.  However age can
still be set to 0 via update by supplying the truthy string "0", which
parseInt turns into 0. -/
theorem c10_falsy_update_fields_excluded
    (b : Body) (d : PgUpdateSet) (pdb : PgDB) (idStr : String) (pid : Int)
    (u : PUser) (now : Nat) :
    (pgUpdateData b = .ok d →
      (jsTruthy b.name = false → d.name = none) ∧
      (jsTruthy b.email = false → d.email = none) ∧
      (jsTruthy b.age = false → d.age = none) ∧
      (jsTruthy b.role = false → d.role = none)) ∧
    (jsParseInt (.vstr idStr) = some pid →
     pdb.users.find? (fun v => v.id == pid) = some u →
     pdb.users.any (fun v => !(v.id == pid) && v.email == u.email) = false →
     (updateUserInPostgres pdb idStr { age := some (.vnum 0) } now).1.httpStatus = 200 ∧
     ((updateUserInPostgres pdb idStr { age := some (.vnum 0) } now).1.user.map PUser.age) =
       some u.age ∧
     (updateUserInPostgres pdb idStr { age := some (.vstr "0") } now).1.httpStatus = 200 ∧
     ((updateUserInPostgres pdb idStr { age := some (.vstr "0") } now).1.user.map PUser.age) =
       some (some 0)) := by
  constructor
  · exact fun hd => pgUpdateData_ok_shape b d hd
  · intro hpid hfind hdup
    have h0 : pgUpdateData { age := some (.vnum 0) } = .ok ⟨none, none, none, none⟩ := rfl
    have h1 : pgUpdateData { age := some (.vstr "0") } = .ok ⟨none, none, some 0, none⟩ := rfl
    refine ⟨?_, ?_, ?_, ?_⟩ <;>
      simp [updateUserInPostgres, hpid, h0, h1, hfind, applyPgUpdate, hdup]

/-- Witness for C10 (amended): on the stored row with age 25, the
numeric-0 payload yields 200 with age still 25 and its update set drops
the field, while the string-"0" payload yields 200 with age 0. -/
theorem c10_witness :
    (⟨none, none, none, none⟩ : PgUpdateSet).age = none ∧
    (updateUserInPostgres ⟨[⟨12, "Pat", "a@x.com", some 25, "USER", 0, 0⟩], 13⟩ "12"
        { age := some (.vnum 0) } 9).1.httpStatus = 200 ∧
    ((updateUserInPostgres ⟨[⟨12, "Pat", "a@x.com", some 25, "USER", 0, 0⟩], 13⟩ "12"
        { age := some (.vnum 0) } 9).1.user.map PUser.age) = some (some 25) ∧
    (updateUserInPostgres ⟨[⟨12, "Pat", "a@x.com", some 25, "USER", 0, 0⟩], 13⟩ "12"
        { age := some (.vstr "0") } 9).1.httpStatus = 200 ∧
    ((updateUserInPostgres ⟨[⟨12, "Pat", "a@x.com", some 25, "USER", 0, 0⟩], 13⟩ "12"
        { age := some (.vstr "0") } 9).1.user.map PUser.age) = some (some 0) := by
  obtain ⟨h1, h2⟩ := c10_falsy_update_fields_excluded
    { age := some (.vnum 0) } ⟨none, none, none, none⟩
    ⟨[⟨12, "Pat", "a@x.com", some 25, "USER", 0, 0⟩], 13⟩ "12" 12
    ⟨12, "Pat", "a@x.com", some 25, "USER", 0, 0⟩ 9
  obtain ⟨ha, hb, hc, hd⟩ := h2 (by decide) (by decide) (by decide)
  exact ⟨(h1 (by rfl)).2.2.1 (by decide), ha, hb, hc, hd⟩
